import Mathlib

/-!
Shallow embedding of the travelingo service (Go, fiber + mongo + jwt): the
Travel data model, the record-store operations, the JWT helpers and the
request handlers, translated from src/unnamed/part_000 (the variant with
JWT protection) and src/main.go. The mongo driver and the jwt library are
external collaborators; where their behaviour decides a statement it is
modelled from the specification of their interface and marked as such.
-/

deriving instance DecidableEq for Except

namespace Travelingo

/-- ObjectID, represented by its canonical (lower-case) 24-character hex
string, matching primitive.ObjectID as the service observes it. -/
abbrev ObjectID := String

/-- The zero value of primitive.ObjectID (primitive.NilObjectID), which
ObjectIDFromHex returns together with an error on a malformed input. -/
def nilObjectID : ObjectID := "000000000000000000000000"

/-- Hex-digit test used by ObjectIDFromHex. -/
def isHexDigit (c : Char) : Bool :=
  c.isDigit || ('a' ≤ c && c ≤ 'f') || ('A' ≤ c && c ≤ 'F')

/-- primitive.ObjectIDFromHex: a 24-character hex string decodes to an
ObjectID (canonicalised to lower case); anything else is an error. The
string is handled through its character list so that concrete identifiers
evaluate. -/
def objectIDFromHex (s : String) : Except String ObjectID :=
  if s.toList.length = 24 && s.toList.all isHexDigit then
    .ok (String.mk (s.toList.map Char.toLower))
  else
    .error "the provided hex string is not a valid ObjectID"

/-- Travel record (struct Travel in main.go / part_000). -/
structure Travel where
  objectID : ObjectID
  name : String
  photo : String
  done : Bool
deriving DecidableEq, Repr

/-- The Go zero value of Travel (ObjectID zero, empty strings, false). -/
def emptyTravel : Travel :=
  { objectID := nilObjectID, name := "", photo := "", done := false }

/-- The document collection backing DBRepository, as the ordered sequence
of stored documents. -/
abbrev Store := List Travel

/-- Collection.FindOne with filter on the primary key: the first stored
document whose identifier matches. -/
def findFirst : Store → ObjectID → Option Travel
  | [], _ => none
  | t :: ts, oid => if t.objectID = oid then some t else findFirst ts oid

/-- Collection.ReplaceOne with filter on the primary key: replaces the
first matching document; replacing nothing is not an error. -/
def replaceFirst : Store → ObjectID → Travel → Store
  | [], _, _ => []
  | t :: ts, oid, r =>
    if t.objectID = oid then r :: ts else t :: replaceFirst ts oid r

/-- Collection.DeleteOne with filter on the primary key: removes the first
matching document; removing nothing is not an error. -/
def removeFirst : Store → ObjectID → Store
  | [], _ => []
  | t :: ts, oid =>
    if t.objectID = oid then ts else t :: removeFirst ts oid

/-- DBRepository.findOne: parse the id, look the document up, and fail with
the no-documents decode error when nothing matches. -/
def findOne (st : Store) (id : String) : Except String Travel :=
  match objectIDFromHex id with
  | .error e => .error e
  | .ok oid =>
    match findFirst st oid with
    | some t => .ok t
    | none => .error "mongo: no documents in result"

/-- DBRepository.insertOne: overwrites the identifier of the record with a
freshly generated ObjectID (primitive.NewObjectID, passed here as the
freshId argument) and appends the document; returns the mutated record and
the new store. Write failures of the driver are not modelled. -/
def insertOne (st : Store) (travel : Travel) (freshId : ObjectID) :
    Travel × Store :=
  let travel' := { travel with objectID := freshId }
  (travel', st ++ [travel'])

/-- DBRepository.updateOne: the parse error of ObjectIDFromHex is ignored
(Go discards it with a blank identifier), so a malformed id silently becomes
the zero ObjectID; the record identifier is then forced to that value and
ReplaceOne replaces the first matching document. -/
def updateOne (st : Store) (id : String) (travel : Travel) :
    Except String Store :=
  let oid := match objectIDFromHex id with
    | .ok o => o
    | .error _ => nilObjectID
  let travel' := { travel with objectID := oid }
  .ok (replaceFirst st oid travel')

/-- DBRepository.deleteOne: the parse error is propagated; a delete that
matches nothing succeeds. -/
def deleteOne (st : Store) (id : String) : Except String Store :=
  match objectIDFromHex id with
  | .error e => .error e
  | .ok oid => .ok (removeFirst st oid)

/-- Payload handed to the response helper (the data argument). -/
inductive RespData where
  | travel (t : Travel)
  | travels (ts : List Travel)
deriving DecidableEq, Repr

/-- Body of an emitted HTTP response. errObj m stands for the JSON object
with single key error and value m; jwtErrObj m stands for the object with
keys error (true) and msg (m) emitted by jwtError. -/
inductive Body where
  | empty
  | json (d : RespData)
  | errObj (msg : String)
  | jwtErrObj (msg : String)
deriving DecidableEq, Repr

/-- An emitted HTTP response: status code and body. -/
structure HTTPResponse where
  status : Nat
  body : Body
deriving DecidableEq, Repr

/-- The response helper (func response): a non-nil error wins and produces
status 500 with the error message as body, whatever httpStatus the caller
passed; only with a nil error is httpStatus used, with the data as JSON
body when present and an empty body otherwise. -/
def response (data : Option RespData) (httpStatus : Nat)
    (err : Option String) : HTTPResponse :=
  match err with
  | some msg => { status := 500, body := .errObj msg }
  | none =>
    match data with
    | some d => { status := httpStatus, body := .json d }
    | none => { status := httpStatus, body := .empty }

/-- Claim set of a parsed token (jwt.MapClaims), as an association list
from claim names to integer values. The service only ever stores and reads
the integer exp claim, so claim values are modelled as integers (Go stores
the Unix time as int64 and reads it back through float64; the conversion is
exact in the range the service uses). -/
abbrev Claims := List (String × Int)

/-- A parsed jwt.Token as the service inspects it: the result of the
MapClaims type assertion (none when the assertion fails) and the Valid
flag. -/
structure JwtToken where
  claims : Option Claims
  valid : Bool
deriving DecidableEq, Repr

/-- TokenMetadata struct: the expiration claim carried out of a token. -/
structure TokenMetadata where
  expires : Int
deriving DecidableEq, Repr

/-- The exp lookup claims[exp].(float64) performed by ExtractTokenMetadata.
In Go a missing or ill-typed exp claim would make the type assertion panic
at runtime; no theorem below depends on that case, and every token reaching
this read in the theorems carries an exp claim, so the default value of the
lookup is never exercised. -/
def claimExp (cs : Claims) : Int :=
  (cs.lookup "exp").getD 0

/-- Go strings.Split for the single-space separator, written out so that
concrete headers evaluate: Split of the empty string is the singleton list
holding the empty string, and separators between parts produce empty
fields, exactly as in Go. -/
def splitSpaceAux : List Char → List Char → List String
  | [], acc => [String.mk acc.reverse]
  | c :: cs, acc =>
    if c = ' ' then String.mk acc.reverse :: splitSpaceAux cs []
    else splitSpaceAux cs (c :: acc)

/-- strings.Split(s, single space). -/
def goSplitSpace (s : String) : List String :=
  splitSpaceAux s.toList []

/-- func extractToken: split the Authorization header on spaces; with
exactly two fields return the second, otherwise the empty string. The
scheme word in the first field is never inspected. -/
def extractToken (authHeader : String) : String :=
  let onlyToken := goSplitSpace authHeader
  if onlyToken.length = 2 then onlyToken.getD 1 "" else ""

/-- Presence of the bearer scheme word in the Authorization header: the
first space-separated field is the word Bearer. The source never tests
this; the definition exists to state the specification claim about it. -/
def hasBearerScheme (authHeader : String) : Bool :=
  (goSplitSpace authHeader).getD 0 "" == "Bearer"

/-- func verifyToken: extract the raw token from the header and hand it to
jwt.Parse. The jwt library is external, so the parse is a parameter: an
arbitrary function from token strings to a parsed token or an error. -/
def verifyToken (jwtParse : String → Except String JwtToken)
    (authHeader : String) : Except String JwtToken :=
  jwtParse (extractToken authHeader)

/-- func ExtractTokenMetadata, from the result of verifyToken: on a parse
error return no metadata and that error; when the MapClaims assertion
succeeds and the token is valid return the exp claim and no error; in the
remaining branch the Go code returns nil together with the err variable,
which at that point still holds the nil error of the successful verify, so
both components are nil. -/
def ExtractTokenMetadata (vres : Except String JwtToken) :
    Option TokenMetadata × Option String :=
  match vres with
  | .error e => (none, some e)
  | .ok token =>
    match token.claims, token.valid with
    | some cs, true => (some { expires := claimExp cs }, none)
    | _, _ => (none, none)

/-- Claim set embedded by GenerateNewAccessToken: a single exp claim set to
now plus the configured minutes (Unix seconds, so sixty seconds a
minute). -/
def issuedClaims (now minutesCount : Int) : Claims :=
  [("exp", now + 60 * minutesCount)]

/-- Modelled from the spec: the round trip through the external jwt
library. Per the Token Authority contract, verify parses and validates the
signature with the shared secret and returns the embedded claims on
success, without enforcing expiration; hence a token freshly produced by
GenerateNewAccessToken and signed with the same secret parses successfully,
is valid, and carries exactly the claims embedded at issuance. -/
def parseIssuedToken (now minutesCount : Int) : Except String JwtToken :=
  .ok { claims := some (issuedClaims now minutesCount), valid := true }

/-- The message of the unauthorized branch of the protected handlers. -/
def unauthorizedMsg : String :=
  "unauthorized, check expiration time of your token"

/-- Outcome of a protected handler: an HTTP response together with the
store as left by the handler, or the runtime fault reached when the handler
reads claims.Expires from a nil pointer. -/
inductive HandlerResult where
  | resp (r : HTTPResponse) (st : Store)
  | nilDeref
deriving DecidableEq, Repr

/-- Status code of a handler outcome, when a response was emitted. -/
def HandlerResult.statusOf : HandlerResult → Option Nat
  | .resp r _ => some r.status
  | .nilDeref => none

/-- getTravel handler (public): empty path id goes to the response helper
with status 422 and a non-nil error; otherwise findOne and the helper with
status 200. -/
def getTravel (st : Store) (id : String) : HTTPResponse :=
  if id = "" then
    response none 422 (some "id is not defined")
  else
    match findOne st id with
    | .ok t => response (some (.travel t)) 200 none
    | .error e => response none 200 (some e)

/-- createTravel handler (protected). Inputs are the pieces of the fiber
context the code reads: the current Unix time, the result pair of
ExtractTokenMetadata, the body-parse result, and the fresh ObjectID the
insert will assign. The claims pointer is dereferenced right after the
error check, so a nil pointer with a nil error is the nil-dereference
outcome. -/
def createTravel (now : Int) (meta : Option TokenMetadata × Option String)
    (body : Except String Travel) (freshId : ObjectID) (st : Store) :
    HandlerResult :=
  match meta.2 with
  | some e => .resp (response none 500 (some e)) st
  | none =>
    match meta.1 with
    | none => .nilDeref
    | some claims =>
      if now > claims.expires then
        .resp (response none 401 (some unauthorizedMsg)) st
      else
        match body with
        | .error e => .resp (response (some (.travel emptyTravel)) 422 (some e)) st
        | .ok travel =>
          let r := insertOne st travel freshId
          .resp (response (some (.travel r.1)) 200 none) r.2

/-- updateTravel handler (protected): token error check, expiry check, then
the empty-id check, then the body parse, then updateOne and the response
helper with status 204. -/
def updateTravel (now : Int) (meta : Option TokenMetadata × Option String)
    (id : String) (body : Except String Travel) (st : Store) :
    HandlerResult :=
  match meta.2 with
  | some e => .resp (response none 500 (some e)) st
  | none =>
    match meta.1 with
    | none => .nilDeref
    | some claims =>
      if now > claims.expires then
        .resp (response none 401 (some unauthorizedMsg)) st
      else if id = "" then
        .resp (response none 422 (some "id is not defined")) st
      else
        match body with
        | .error e => .resp (response (some (.travel emptyTravel)) 422 (some e)) st
        | .ok travel =>
          match updateOne st id travel with
          | .ok st' => .resp (response none 204 none) st'
          | .error e => .resp (response none 204 (some e)) st

/-- deleteTravel handler (protected): token error check, expiry check, then
the empty-id check, then deleteOne and the response helper with status
204. -/
def deleteTravel (now : Int) (meta : Option TokenMetadata × Option String)
    (id : String) (st : Store) : HandlerResult :=
  match meta.2 with
  | some e => .resp (response none 500 (some e)) st
  | none =>
    match meta.1 with
    | none => .nilDeref
    | some claims =>
      if now > claims.expires then
        .resp (response none 401 (some unauthorizedMsg)) st
      else if id = "" then
        .resp (response none 422 (some "id is not defined")) st
      else
        match deleteOne st id with
        | .ok st' => .resp (response none 204 none) st'
        | .error e => .resp (response none 204 (some e)) st

/-- func jwtError, the error handler of the JWT middleware: the fixed
missing-or-malformed message gets status 400, every other verification
failure status 401, both with the error-flag body. -/
def jwtError (errMsg : String) : HTTPResponse :=
  if errMsg = "Missing or malformed JWT" then
    { status := 400, body := .jwtErrObj errMsg }
  else
    { status := 401, body := .jwtErrObj errMsg }

/-- Failure conditions under which the JWT middleware invokes its error
handler. -/
inductive AuthFailure where
  | missingOrMalformedHeader
  | verificationFailed (msg : String)
deriving DecidableEq, Repr

/-- Modelled from the spec: the message the external JWT middleware passes
to the configured error handler — the fixed text Missing or malformed JWT
when the Authorization header is absent or malformed, and the verification
error text otherwise. -/
def middlewareErrMsg : AuthFailure → String
  | .missingOrMalformedHeader => "Missing or malformed JWT"
  | .verificationFailed m => m

/-- Response of a protected route when the middleware of JWTProtected
rejects the request: the configured error handler jwtError applied to the
middleware message. -/
def JWTProtectedOnError (f : AuthFailure) : HTTPResponse :=
  jwtError (middlewareErrMsg f)

/-- Sample jwt parse function standing for the external library in the
concrete counterexample: exactly one token string is signature-valid, and
in particular the empty string (the token extracted from a header without
exactly two fields) is rejected as malformed. -/
def jwtParseSample : String → Except String JwtToken :=
  fun s =>
    if s = "sampletoken" then
      .ok { claims := some [("exp", 100)], valid := true }
    else
      .error "signature is invalid"

/-- Sample Travel payload used at concrete inputs. -/
def travelSample : Travel :=
  { objectID := nilObjectID, name := "beach", photo := "beach.png", done := true }

/-! Helper lemmas about the store primitives. -/

theorem findFirst_eq_none {st : Store} {oid : ObjectID}
    (h : ∀ t ∈ st, t.objectID ≠ oid) : findFirst st oid = none := by
  induction st with
  | nil => rfl
  | cons t ts ih =>
    simp only [findFirst, if_neg (h t (by simp))]
    exact ih fun u hu => h u (by simp [hu])

theorem findFirst_append_last {st : Store} {t' : Travel} {oid : ObjectID}
    (h : ∀ t ∈ st, t.objectID ≠ oid) (ht : t'.objectID = oid) :
    findFirst (st ++ [t']) oid = some t' := by
  induction st with
  | nil => simp [findFirst, ht]
  | cons t ts ih =>
    simp only [List.cons_append, findFirst, if_neg (h t (by simp))]
    exact ih fun u hu => h u (by simp [hu])

theorem replaceFirst_of_absent {st : Store} {oid : ObjectID} {r : Travel}
    (h : ∀ t ∈ st, t.objectID ≠ oid) : replaceFirst st oid r = st := by
  induction st with
  | nil => rfl
  | cons t ts ih =>
    simp only [replaceFirst, if_neg (h t (by simp))]
    exact congrArg (t :: ·) (ih fun u hu => h u (by simp [hu]))

theorem removeFirst_of_absent {st : Store} {oid : ObjectID}
    (h : ∀ t ∈ st, t.objectID ≠ oid) : removeFirst st oid = st := by
  induction st with
  | nil => rfl
  | cons t ts ih =>
    simp only [removeFirst, if_neg (h t (by simp))]
    exact congrArg (t :: ·) (ih fun u hu => h u (by simp [hu]))

/-! Claim theorems. -/

/-- C1: the claim states that an empty path identifier on GET, PUT or
DELETE of /travels/:id yields HTTP status 422. The handlers do pass 422 to
the response helper, but together with a non-nil error, and the helper
overrides the status with 500: on an empty identifier every one of the
three handlers emits status 500 with the error body, never 422 (for PUT
and DELETE the identifier check is only reached with a token error pair
that is nil and an unexpired claim). -/
theorem c1_empty_id_emits_500 :
    (∀ st : Store, getTravel st "" = { status := 500, body := .errObj "id is not defined" })
    ∧ (∀ (now e : Int) (body : Except String Travel) (st : Store), now ≤ e →
        updateTravel now (some { expires := e }, none) "" body st
          = .resp { status := 500, body := .errObj "id is not defined" } st)
    ∧ (∀ (now e : Int) (st : Store), now ≤ e →
        deleteTravel now (some { expires := e }, none) "" st
          = .resp { status := 500, body := .errObj "id is not defined" } st) := by
  refine ⟨fun st => rfl, fun now e body st h => ?_, fun now e st h => ?_⟩
  · simp [updateTravel, response, show ¬ now > e from not_lt.mpr h]
  · simp [deleteTravel, response, show ¬ now > e from not_lt.mpr h]

/-- C1 witness: the three handlers evaluated at concrete empty-identifier
requests. -/
theorem c1_empty_id_emits_500_witness :
    getTravel [] "" = { status := 500, body := .errObj "id is not defined" }
    ∧ updateTravel 0 (some { expires := 7 }, none) "" (.ok travelSample) []
        = .resp { status := 500, body := .errObj "id is not defined" } []
    ∧ deleteTravel 0 (some { expires := 7 }, none) "" []
        = .resp { status := 500, body := .errObj "id is not defined" } [] :=
  ⟨c1_empty_id_emits_500.1 [],
   c1_empty_id_emits_500.2.1 0 7 (.ok travelSample) [] (by decide),
   c1_empty_id_emits_500.2.2 0 7 [] (by decide)⟩

/-- C2: the claim states that a signature-valid token whose expiration
claim lies strictly in the past makes a protected handler respond 401. The
handlers reach the expiry branch and pass 401 to the response helper, but
with a non-nil error, so the helper emits status 500 with the unauthorized
message as error body instead, on each of the three protected handlers. -/
theorem c2_expired_token_emits_500 :
    (∀ (now e : Int) (body : Except String Travel) (fid : ObjectID) (st : Store), now > e →
        createTravel now (some { expires := e }, none) body fid st
          = .resp { status := 500, body := .errObj unauthorizedMsg } st)
    ∧ (∀ (now e : Int) (id : String) (body : Except String Travel) (st : Store), now > e →
        updateTravel now (some { expires := e }, none) id body st
          = .resp { status := 500, body := .errObj unauthorizedMsg } st)
    ∧ (∀ (now e : Int) (id : String) (st : Store), now > e →
        deleteTravel now (some { expires := e }, none) id st
          = .resp { status := 500, body := .errObj unauthorizedMsg } st) := by
  refine ⟨fun now e body fid st h => ?_, fun now e id body st h => ?_,
    fun now e id st h => ?_⟩
  · simp [createTravel, response, h]
  · simp [updateTravel, response, h]
  · simp [deleteTravel, response, h]

/-- C2 witness: the three protected handlers evaluated with an expired
claim at concrete inputs. -/
theorem c2_expired_token_emits_500_witness :
    createTravel 10 (some { expires := 3 }, none) (.ok travelSample) nilObjectID []
      = .resp { status := 500, body := .errObj unauthorizedMsg } []
    ∧ updateTravel 10 (some { expires := 3 }, none) "x" (.ok travelSample) []
        = .resp { status := 500, body := .errObj unauthorizedMsg } []
    ∧ deleteTravel 10 (some { expires := 3 }, none) "x" []
        = .resp { status := 500, body := .errObj unauthorizedMsg } [] :=
  ⟨c2_expired_token_emits_500.1 10 3 (.ok travelSample) nilObjectID [] (by decide),
   c2_expired_token_emits_500.2.1 10 3 "x" (.ok travelSample) [] (by decide),
   c2_expired_token_emits_500.2.2 10 3 "x" [] (by decide)⟩

/-- C3: whenever the response helper receives a non-nil error it emits
status 500 with the single-key error body carrying the error message,
whatever httpStatus was passed; with a nil error the passed httpStatus is
used, with the data as JSON body when present and an empty body
otherwise. -/
theorem c3_response_error_overrides_status :
    (∀ (data : Option RespData) (httpStatus : Nat) (m : String),
        response data httpStatus (some m) = { status := 500, body := .errObj m })
    ∧ (∀ (d : RespData) (httpStatus : Nat),
        response (some d) httpStatus none = { status := httpStatus, body := .json d })
    ∧ (∀ httpStatus : Nat,
        response none httpStatus none = { status := httpStatus, body := .empty }) :=
  ⟨fun _ _ _ => rfl, fun _ _ => rfl, fun _ => rfl⟩

/-- C4 counterexample: the claim states that no Authorization header
lacking the bearer scheme word yields a successfully verified claim set.
With a parse function that rejects the empty string as malformed (as the
claim presumes of the library), the header consisting of the word Basic
followed by a signature-valid token has no bearer scheme word and still
verifies successfully, because extractToken only counts fields and never
inspects the scheme word. -/
theorem c4_counterexample :
    jwtParseSample "" = .error "signature is invalid"
    ∧ hasBearerScheme "Basic sampletoken" = false
    ∧ verifyToken jwtParseSample "Basic sampletoken"
        = .ok { claims := some [("exp", 100)], valid := true } := by
  refine ⟨rfl, by decide, by decide⟩

/-- C4 amended: verification fails whenever the Authorization header does
not consist of exactly two space-separated fields — the extracted token is
then the empty string, which the parse rejects as malformed — while on any
two-field header the second field is handed to the parse unchanged; the
scheme word is never checked. -/
theorem c4_malformed_header_fails_scheme_unchecked :
    (∀ (jwtParse : String → Except String JwtToken) (em : String),
        jwtParse "" = .error em →
        ∀ h : String, (goSplitSpace h).length ≠ 2 →
          verifyToken jwtParse h = .error em)
    ∧ (∀ (jwtParse : String → Except String JwtToken) (h : String),
        (goSplitSpace h).length = 2 →
        verifyToken jwtParse h = jwtParse ((goSplitSpace h).getD 1 "")) := by
  constructor
  · intro jwtParse em hp h hne
    simp only [verifyToken, extractToken, if_neg hne]
    exact hp
  · intro jwtParse h hlen
    simp only [verifyToken, extractToken, if_pos hlen]

/-- C4 witness for the amended statement: a one-field header fails with
the malformed error, and a two-field header hands its second field to the
parse. -/
theorem c4_amended_witness :
    jwtParseSample "" = .error "signature is invalid"
    ∧ (goSplitSpace "garbage").length ≠ 2
    ∧ verifyToken jwtParseSample "garbage" = .error "signature is invalid"
    ∧ (goSplitSpace "Bearer sampletoken").length = 2
    ∧ verifyToken jwtParseSample "Bearer sampletoken" = jwtParseSample "sampletoken" :=
  ⟨rfl, by decide,
   c4_malformed_header_fails_scheme_unchecked.1 jwtParseSample _ rfl "garbage" (by decide),
   by decide,
   c4_malformed_header_fails_scheme_unchecked.2 jwtParseSample "Bearer sampletoken" (by decide)⟩

/-- C5: for a validly parsing identifier that matches no stored document,
findOne fails with the no-documents condition while deleteOne and
updateOne succeed without error and leave the store unchanged. -/
theorem c5_absent_id_behaviour :
    ∀ (st : Store) (id : String) (oid : ObjectID) (rec : Travel),
      objectIDFromHex id = .ok oid →
      (∀ t ∈ st, t.objectID ≠ oid) →
      findOne st id = .error "mongo: no documents in result"
      ∧ deleteOne st id = .ok st
      ∧ updateOne st id rec = .ok st := by
  intro st id oid rec hparse habsent
  refine ⟨?_, ?_, ?_⟩
  · simp [findOne, hparse, findFirst_eq_none habsent]
  · simp [deleteOne, hparse, removeFirst_of_absent habsent]
  · simp [updateOne, hparse, replaceFirst_of_absent habsent]

/-- C5 witness: the absent-identifier behaviour evaluated on the empty
store at a concrete valid identifier. -/
theorem c5_absent_id_behaviour_witness :
    objectIDFromHex "aaaaaaaaaaaaaaaaaaaaaaaa" = .ok "aaaaaaaaaaaaaaaaaaaaaaaa"
    ∧ findOne [] "aaaaaaaaaaaaaaaaaaaaaaaa" = .error "mongo: no documents in result"
    ∧ deleteOne [] "aaaaaaaaaaaaaaaaaaaaaaaa" = .ok []
    ∧ updateOne [] "aaaaaaaaaaaaaaaaaaaaaaaa" travelSample = .ok [] := by
  have h := c5_absent_id_behaviour [] "aaaaaaaaaaaaaaaaaaaaaaaa"
    "aaaaaaaaaaaaaaaaaaaaaaaa" travelSample (by decide) (by simp)
  exact ⟨by decide, h.1, h.2.1, h.2.2⟩

/-- C6: insertOne overwrites the identifier of the payload with the fresh
identifier, and a subsequent findOne on that identifier returns a record
equal to the payload in every field except the identifier. -/
theorem c6_insert_then_find :
    ∀ (st : Store) (P : Travel) (fid : ObjectID),
      objectIDFromHex fid = .ok fid →
      (∀ t ∈ st, t.objectID ≠ fid) →
      (insertOne st P fid).1 = { P with objectID := fid }
      ∧ findOne (insertOne st P fid).2 fid = .ok { P with objectID := fid }
      ∧ (insertOne st P fid).1.name = P.name
      ∧ (insertOne st P fid).1.photo = P.photo
      ∧ (insertOne st P fid).1.done = P.done := by
  intro st P fid hparse habsent
  refine ⟨rfl, ?_, rfl, rfl, rfl⟩
  have hfind : findFirst (st ++ [{ P with objectID := fid }]) fid
      = some { P with objectID := fid } :=
    findFirst_append_last habsent rfl
  simp [findOne, insertOne, hparse, hfind]

/-- C6 witness: insert into the empty store with a concrete fresh
identifier, then find it again. -/
theorem c6_insert_then_find_witness :
    (insertOne [] travelSample "aaaaaaaaaaaaaaaaaaaaaaaa").1
        = { travelSample with objectID := "aaaaaaaaaaaaaaaaaaaaaaaa" }
    ∧ findOne (insertOne [] travelSample "aaaaaaaaaaaaaaaaaaaaaaaa").2
          "aaaaaaaaaaaaaaaaaaaaaaaa"
        = .ok { travelSample with objectID := "aaaaaaaaaaaaaaaaaaaaaaaa" } := by
  have h := c6_insert_then_find [] travelSample "aaaaaaaaaaaaaaaaaaaaaaaa"
    (by decide) (by simp)
  exact ⟨h.1, h.2.1⟩

/-- C7: verification of a freshly issued token succeeds and yields an
expiration claim at least the issuance time and at most the issuance time
plus the configured lifetime in minutes (here it equals the upper bound),
and the embedded claim set holds no claim besides exp. The round trip
through the external jwt library is the spec-modelled parseIssuedToken. -/
theorem c7_issue_verify_roundtrip :
    ∀ (now minutesCount : Int), 0 ≤ minutesCount →
      ExtractTokenMetadata (parseIssuedToken now minutesCount)
        = (some { expires := claimExp (issuedClaims now minutesCount) }, none)
      ∧ now ≤ claimExp (issuedClaims now minutesCount)
      ∧ claimExp (issuedClaims now minutesCount) ≤ now + 60 * minutesCount
      ∧ ∀ k v, (k, v) ∈ issuedClaims now minutesCount → k = "exp" := by
  intro now minutesCount hm
  have hexp : claimExp (issuedClaims now minutesCount) = now + 60 * minutesCount := rfl
  refine ⟨rfl, ?_, ?_, ?_⟩
  · rw [hexp]; omega
  · rw [hexp]
  · intro k v hkv
    simp only [issuedClaims, List.mem_singleton, Prod.mk.injEq] at hkv
    exact hkv.1

/-- C7 witness: the round trip at a concrete issuance time and lifetime. -/
theorem c7_issue_verify_roundtrip_witness :
    ExtractTokenMetadata (parseIssuedToken 1000 30)
      = (some { expires := claimExp (issuedClaims 1000 30) }, none)
    ∧ 1000 ≤ claimExp (issuedClaims 1000 30)
    ∧ claimExp (issuedClaims 1000 30) ≤ 1000 + 60 * 30 :=
  have h := c7_issue_verify_roundtrip 1000 30 (by decide)
  ⟨h.1, h.2.1, h.2.2.1⟩

/-- C8: when the JWT middleware rejects a request with the fixed missing
or malformed message — the message it produces exactly for an absent or
malformed Authorization header, modelled from the spec — the configured
error handler jwtError responds 400 carrying that message, and any other
verification failure message is answered with 401. -/
theorem c8_auth_error_statuses :
    JWTProtectedOnError .missingOrMalformedHeader
      = { status := 400, body := .jwtErrObj "Missing or malformed JWT" }
    ∧ ∀ m : String, m ≠ "Missing or malformed JWT" →
        JWTProtectedOnError (.verificationFailed m)
          = { status := 401, body := .jwtErrObj m } := by
  refine ⟨rfl, fun m hm => ?_⟩
  simp [JWTProtectedOnError, middlewareErrMsg, jwtError, hm]

/-- C8 witness: a concrete non-malformed verification failure gets 401. -/
theorem c8_auth_error_statuses_witness :
    JWTProtectedOnError (.verificationFailed "signature is invalid")
      = { status := 401, body := .jwtErrObj "signature is invalid" } :=
  c8_auth_error_statuses.2 "signature is invalid" (by decide)

/-- C9 counterexample: the claim states that updateOne requires the
identifier to parse. On the unparseable identifier zz the call succeeds
without error; the ignored parse error leaves the zero ObjectID in place,
so a stored document carrying the zero identifier is even replaced, with
the persisted identifier equal to the zero ObjectID and not related to the
requested identifier. -/
theorem c9_counterexample :
    (objectIDFromHex "zz").isOk = false
    ∧ updateOne [] "zz" travelSample = .ok []
    ∧ updateOne [emptyTravel] "zz" travelSample
        = .ok [{ travelSample with objectID := nilObjectID }] := by
  refine ⟨by decide, by decide, by decide⟩

/-- C9 amended: updateOne never rejects the identifier. When the
identifier parses, the persisted document has its identifier forced to the
parsed value, ignoring any identifier carried in the record; when it does
not parse, the error is silently discarded and the zero ObjectID is used
as the forced identifier and as the replacement filter. -/
theorem c9_update_forces_id :
    (∀ (st : Store) (id : String) (oid : ObjectID) (rec : Travel),
        objectIDFromHex id = .ok oid →
        updateOne st id rec = .ok (replaceFirst st oid { rec with objectID := oid }))
    ∧ (∀ (st : Store) (id : String) (rec : Travel),
        (objectIDFromHex id).isOk = false →
        updateOne st id rec
          = .ok (replaceFirst st nilObjectID { rec with objectID := nilObjectID })) := by
  constructor
  · intro st id oid rec hparse
    simp [updateOne, hparse]
  · intro st id rec hbad
    cases hparse : objectIDFromHex id with
    | ok o => rw [hparse] at hbad; simp [Except.isOk, Except.toBool] at hbad
    | error e => simp [updateOne, hparse]

/-- C9 witness for the amended statement: a parsing identifier forces the
persisted identifier to its value, and an unparseable identifier silently
targets the zero ObjectID. -/
theorem c9_update_forces_id_witness :
    objectIDFromHex "aaaaaaaaaaaaaaaaaaaaaaaa" = .ok "aaaaaaaaaaaaaaaaaaaaaaaa"
    ∧ updateOne [] "aaaaaaaaaaaaaaaaaaaaaaaa" travelSample
        = .ok (replaceFirst [] "aaaaaaaaaaaaaaaaaaaaaaaa"
            { travelSample with objectID := "aaaaaaaaaaaaaaaaaaaaaaaa" })
    ∧ (objectIDFromHex "zz").isOk = false
    ∧ updateOne [] "zz" travelSample
        = .ok (replaceFirst [] nilObjectID { travelSample with objectID := nilObjectID }) :=
  ⟨by decide,
   c9_update_forces_id.1 [] "aaaaaaaaaaaaaaaaaaaaaaaa" "aaaaaaaaaaaaaaaaaaaaaaaa"
     travelSample (by decide),
   by decide,
   c9_update_forces_id.2 [] "zz" travelSample (by decide)⟩

/-- C10 counterexample: the claim states that a nil error from
ExtractTokenMetadata comes with non-nil metadata. On a parsed token whose
validity check fails, the function returns the pair of nil metadata and
the still-nil error of the successful verify, and createTravel then
dereferences the nil claims pointer. -/
theorem c10_counterexample :
    ExtractTokenMetadata (.ok { claims := some [("exp", 5)], valid := false })
      = (none, none)
    ∧ createTravel 0
        (ExtractTokenMetadata (.ok { claims := some [("exp", 5)], valid := false }))
        (.ok travelSample) nilObjectID [] = .nilDeref := by
  refine ⟨rfl, rfl⟩

/-- C10 amended: a nil error from ExtractTokenMetadata guarantees non-nil
metadata only outside the branch where the token parsed but the claims
assertion or the validity check failed; in that branch the function
returns nil metadata together with a nil error. -/
theorem c10_nil_error_implies_metadata_or_bad_token :
    ∀ vres : Except String JwtToken,
      (ExtractTokenMetadata vres).2 = none →
      (ExtractTokenMetadata vres).1.isSome = true
      ∨ ∃ tok, vres = .ok tok ∧ (tok.claims.isSome && tok.valid) = false := by
  intro vres hnil
  cases vres with
  | error e => simp [ExtractTokenMetadata] at hnil
  | ok tok =>
    cases hc : tok.claims with
    | none => exact Or.inr ⟨tok, rfl, by simp [hc]⟩
    | some cs =>
      cases hv : tok.valid with
      | false => exact Or.inr ⟨tok, rfl, by simp [hv]⟩
      | true => exact Or.inl (by simp [ExtractTokenMetadata, hc, hv])

/-- C10 witness for the amended statement: a valid parsed token with a
succeeding claims assertion gives non-nil metadata under a nil error. -/
theorem c10_nil_error_witness :
    (ExtractTokenMetadata (.ok { claims := some [("exp", 5)], valid := true })).2 = none
    ∧ ((ExtractTokenMetadata (.ok { claims := some [("exp", 5)], valid := true })).1.isSome = true
       ∨ ∃ tok, (.ok { claims := some [("exp", 5)], valid := true } : Except String JwtToken)
            = .ok tok ∧ (tok.claims.isSome && tok.valid) = false) :=
  ⟨rfl, c10_nil_error_implies_metadata_or_bad_token
    (.ok { claims := some [("exp", 5)], valid := true }) rfl⟩

end Travelingo
